import Mathlib

/-!
Shallow embedding of the verification-token lifecycle and authentication
flows of the Quixapro backend (module `users`: `models.py`, `services.py`,
`views.py`, `serializers.py`, plus `common/responses.py` and
`common/exceptions.py`).

Modelling conventions:
* The database is a pair of lists (`users`, `tokens`) together with the
  next auto-increment primary keys.  A Django `QuerySet.filter` is a list
  filter, `QuerySet.get` is a filter followed by a case split on the number
  of matches (`DoesNotExist` / unique row / `MultipleObjectsReturned`),
  `QuerySet.update` and `instance.save()` are maps over the row list keyed
  by primary key.
* Time is a `Nat` measured in minutes; `timezone.now()` becomes an explicit
  `now` argument (the source calls the clock directly).
* Every service function returns the post-state of the database together
  with an `Except`: Django runs in autocommit mode here (none of the
  service functions under study opens `transaction.atomic()`), so writes
  performed before an exception stay committed and the post-state is
  returned even on error.  The two places in the source that do open
  `transaction.atomic()` (`RegisterView.create` and the create branch of
  `UserService._get_or_create_google_user`) are modelled by discarding the
  inner state on error.
* Password hashing is an external vetted primitive, opaque to this core;
  a stored hash is modelled as `some p` where `p` is the raw password it
  was derived from, and an unusable password (`set_unusable_password`) as
  `none`.
* Random token values (`secrets.token_urlsafe`, `random.randint`) are
  passed in as explicit arguments.
* Outbound email delivery is modelled by a boolean `emailOk` argument:
  `false` means the `EmailService` call raises `EmailSendError`.
-/

/-- Error kinds raised by the embedded code, mirroring the Python exception
classes that appear in `users/services.py` and `users/views.py`. -/
inductive Err where
  | validationError (msg : String)
  | authenticationFailed (msg : String)
  | emailSendError
  | integrityError
  | multipleObjectsReturned
  | valueError (msg : String)
  | typeError (msg : String)
  deriving Repr, DecidableEq

/-- Token purposes, from `VerificationToken.TOKEN_TYPE_CHOICES`. -/
inductive TokenType where
  | email_verification
  | password_reset
  deriving Repr, DecidableEq

/-- Row of the `users` table (`users/models.py`, class `User`); only the
columns the verification core reads or writes are kept. -/
structure User where
  id : Nat
  email : String
  name : String
  password : Option String
  email_verified : Bool
  photo_url : Option String
  deriving Repr, DecidableEq

/-- Django `has_usable_password`: true exactly when `set_password` was
called with a real password (`create_user` calls `set_unusable_password`
when `password` is `None`). -/
def User.has_usable_password (u : User) : Bool :=
  u.password.isSome

/-- Row of the `verification_tokens` table (`users/models.py`, class
`VerificationToken`). -/
structure VerificationToken where
  id : Nat
  userId : Nat
  token : String
  token_type : TokenType
  created_at : Nat
  expires_at : Nat
  is_used : Bool
  deriving Repr, DecidableEq

/-- Source `VerificationToken.is_valid`: `not self.is_used and
timezone.now() < self.expires_at`. -/
def VerificationToken.is_valid (t : VerificationToken) (now : Nat) : Bool :=
  !t.is_used && decide (now < t.expires_at)

/-- Database state: the two tables plus their auto-increment counters. -/
structure DB where
  users : List User
  tokens : List VerificationToken
  nextUserId : Nat
  nextTokenId : Nat
  deriving Repr, DecidableEq

/-- Source `User.objects.get(email=email)`, specialised to the unique email
column: the first (and, under the unique constraint, only) row whose email
matches. -/
def findUser (l : List User) (email : String) : Option User :=
  l.find? (fun u => u.email == email)

/-- Characterwise whitespace strip (Python `str.strip`), written over the
character list so that it evaluates by kernel reduction. -/
def trimChars (l : List Char) : List Char :=
  ((l.dropWhile Char.isWhitespace).reverse.dropWhile Char.isWhitespace).reverse

/-- Split a character list at the first occurrence of `sep`: returns the
part before and the part after, or `none` when `sep` does not occur. -/
def breakOnFirst (sep : Char) : List Char → Option (List Char × List Char)
  | [] => none
  | c :: cs =>
    if c = sep then some ([], cs)
    else
      match breakOnFirst sep cs with
      | none => none
      | some (a, b) => some (c :: a, b)

/-- Source `BaseUserManager.normalize_email`: strip the address, split at
the last at sign (Python `rsplit` with one split, realised here by
breaking the reversed list at its first at sign) and lowercase the domain
part; an address without an at sign is returned unchanged (the `rsplit`
raises `ValueError`, which the source swallows). -/
def normalize_email (email : String) : String :=
  match breakOnFirst '@' (trimChars email.data).reverse with
  | none => email
  | some (dRev, nRev) =>
    String.mk (nRev.reverse ++ '@' :: (dRev.reverse.map Char.toLower))

/-- Source `UserManager.create_user`: requires email and name, normalizes
the email, hashes the password (or marks it unusable) and inserts the row.
The `integrityError` branch is the database enforcing the unique constraint
on `users.email`. -/
def create_user (db : DB) (email name : String) (password : Option String)
    (photo_url : Option String) (email_verified : Bool) :
    Except Err (DB × User) :=
  if email = "" then .error (.valueError "Email is required")
  else if name = "" then .error (.valueError "Name is required")
  else if db.users.any (fun u => u.email == normalize_email email) then
    .error .integrityError
  else
    .ok ({ db with
            users := db.users ++
              [{ id := db.nextUserId, email := normalize_email email, name := name,
                 password := password, email_verified := email_verified,
                 photo_url := photo_url }],
            nextUserId := db.nextUserId + 1 },
         { id := db.nextUserId, email := normalize_email email, name := name,
           password := password, email_verified := email_verified,
           photo_url := photo_url })

/-- Source `UserService.is_email_available` (without `exclude_user_id`):
negation of `User.objects.filter(email=email).exists()`. -/
def is_email_available (db : DB) (email : String) : Bool :=
  !(db.users.any (fun u => u.email == email))

/-- Primitive row updates issued by the service functions; each one is a
single autocommitted SQL write. -/
inductive Write where
  | setEmailVerified (uid : Nat)
  | setPassword (uid : Nat) (pw : String)
  | markTokenUsed (tid : Nat)
  deriving Repr, DecidableEq

/-- Row update performed by `user.save()` after `email_verified = True`. -/
def updVerified (uid : Nat) (u : User) : User :=
  if u.id = uid then { u with email_verified := true } else u

/-- Row update performed by `user.save()` after `set_password`. -/
def updPw (uid : Nat) (pw : String) (u : User) : User :=
  if u.id = uid then { u with password := some pw } else u

/-- Row update performed by `token.save()` after `is_used = True`. -/
def updUsed (tid : Nat) (t : VerificationToken) : VerificationToken :=
  if t.id = tid then { t with is_used := true } else t

/-- Apply one committed write to the database. -/
def applyWrite (db : DB) : Write → DB
  | .setEmailVerified uid => { db with users := db.users.map (updVerified uid) }
  | .setPassword uid pw => { db with users := db.users.map (updPw uid pw) }
  | .markTokenUsed tid => { db with tokens := db.tokens.map (updUsed tid) }

/-- Apply a sequence of committed writes in order. -/
def applyWrites (db : DB) (ws : List Write) : DB :=
  ws.foldl applyWrite db

/-- Row effect of the bulk `UPDATE ... SET is_used = true` on one token. -/
def invalidateRow (uid : Nat) (tt : TokenType) (t : VerificationToken) : VerificationToken :=
  if t.userId == uid && t.token_type == tt && t.is_used == false
  then { t with is_used := true } else t

/-- Source bulk invalidation used before minting a new token:
`VerificationToken.objects.filter(user=user, token_type=tt,
is_used=False).update(is_used=True)`. -/
def invalidateTokens (db : DB) (uid : Nat) (tt : TokenType) : DB :=
  { db with tokens := db.tokens.map (invalidateRow uid tt) }

/-- Expiry window in minutes per purpose: 15 minutes for email verification
codes (`create_for_email_verification`), one hour for password reset tokens
(`create_for_password_reset`). -/
def expiryWindow : TokenType → Nat
  | .email_verification => 15
  | .password_reset => 60

/-- Source `VerificationToken.objects.create(...)` as called from
`create_for_email_verification` and `create_for_password_reset`; the random
token value is passed in. -/
def createToken (db : DB) (uid : Nat) (value : String) (tt : TokenType)
    (now : Nat) : DB × VerificationToken :=
  let t : VerificationToken :=
    { id := db.nextTokenId, userId := uid, token := value, token_type := tt,
      created_at := now, expires_at := now + expiryWindow tt, is_used := false }
  ({ db with tokens := db.tokens ++ [t], nextTokenId := db.nextTokenId + 1 }, t)

/-- Source `UserService.send_verification_email`: reject already-verified
users, invalidate prior unused email codes, mint a fresh 4-digit code
(value `newCode`), then dispatch the email (which may raise
`EmailSendError` after the rows are already written). -/
def send_verification_email (db : DB) (user : User) (newCode : String)
    (now : Nat) (emailOk : Bool) : DB × Except Err VerificationToken :=
  if user.email_verified then
    (db, .error (.validationError "Email is already verified."))
  else
    let db1 := invalidateTokens db user.id .email_verification
    let (db2, tok) := createToken db1 user.id newCode .email_verification now
    if emailOk then (db2, .ok tok) else (db2, .error .emailSendError)

/-- Source `UserService.request_password_reset`: look the user up by email,
reject missing users and social-auth accounts, invalidate prior unused
reset tokens, mint a fresh secure token (value `newTok`), then dispatch the
email. -/
def request_password_reset (db : DB) (email newTok : String) (now : Nat)
    (emailOk : Bool) : DB × Except Err Unit :=
  match findUser db.users email with
  | none => (db, .error (.validationError "User with this email does not exist."))
  | some user =>
    if !user.has_usable_password then
      (db, .error (.validationError "This account uses social authentication and does not have a password. Password reset is not available."))
    else
      let db1 := invalidateTokens db user.id .password_reset
      let (db2, _) := createToken db1 user.id newTok .password_reset now
      if emailOk then (db2, .ok ()) else (db2, .error .emailSendError)

/-- Source `UserService.resend_verification_email`: look the user up by
email (distinct `ERROR_USER_NOT_FOUND` message when absent) and delegate to
`send_verification_email`. -/
def resend_verification_email (db : DB) (email newCode : String) (now : Nat)
    (emailOk : Bool) : DB × Except Err VerificationToken :=
  match findUser db.users email with
  | none => (db, .error (.validationError "User with this email does not exist."))
  | some user => send_verification_email db user newCode now emailOk

/-- Token rows matching the `VerificationToken.objects.get(user=user,
token=code, token_type=EMAIL, is_used=False)` lookup of `verify_email`,
given the user row found for the email. -/
def verifyMatches (db : DB) (uid : Nat) (code : String) : List VerificationToken :=
  db.tokens.filter (fun t =>
    t.userId == uid && t.token == code &&
    t.token_type == TokenType.email_verification && t.is_used == false)

/-- Validation phase of `UserService.verify_email`, everything the source
does before its first write; returns the ids of the user row and token row
to be written. -/
def verify_email_check (db : DB) (email code : String) (now : Nat) :
    Except Err (Nat × Nat) :=
  match findUser db.users email with
  | none => .error (.validationError "Invalid or expired verification code.")
  | some user =>
    if user.email_verified then
      .error (.validationError "Email is already verified.")
    else
      match verifyMatches db user.id code with
      | [] => .error (.validationError "Invalid or expired verification code.")
      | [t] =>
        if t.is_valid now then .ok (user.id, t.id)
        else .error (.validationError "Invalid or expired verification code.")
      | _ :: _ :: _ => .error .multipleObjectsReturned

/-- Writes of `UserService.verify_email` in source order: `user.save()`
with `email_verified = True` first, then `verification_token.save()` with
`is_used = True`.  Neither is inside a transaction. -/
def verify_email_writes (db : DB) (email code : String) (now : Nat) : List Write :=
  match verify_email_check db email code now with
  | .ok (uid, tid) => [.setEmailVerified uid, .markTokenUsed tid]
  | .error _ => []

/-- Source `UserService.verify_email(email, code)`: validation followed by
the two autocommitted writes; returns the verified user id. -/
def verify_email (db : DB) (email code : String) (now : Nat) :
    DB × Except Err Nat :=
  match verify_email_check db email code now with
  | .error e => (db, .error e)
  | .ok (uid, tid) =>
    (applyWrites db [.setEmailVerified uid, .markTokenUsed tid], .ok uid)

/-- State reached when execution of `verify_email` stops after the first
`k` committed writes (Django autocommit: each `save()` commits on its
own). -/
def verify_email_crash (db : DB) (email code : String) (now k : Nat) : DB :=
  applyWrites db ((verify_email_writes db email code now).take k)

/-- Token rows matching the `VerificationToken.objects.get(user=user,
token=token, token_type=PASSWORD_RESET)` lookup of `reset_password`
(note: no `is_used` filter in the source), given the user row found for
the email. -/
def resetMatches (db : DB) (uid : Nat) (token : String) : List VerificationToken :=
  db.tokens.filter (fun t =>
    t.userId == uid && t.token == token &&
    t.token_type == TokenType.password_reset)

/-- Validation phase of `UserService.reset_password`, everything the
source does before its first write. -/
def reset_password_check (db : DB) (email token : String) (now : Nat) :
    Except Err (Nat × Nat) :=
  match findUser db.users email with
  | none => .error (.validationError "Invalid or expired reset token.")
  | some user =>
    match resetMatches db user.id token with
    | [] => .error (.validationError "Invalid or expired reset token.")
    | [t] =>
      if t.is_valid now then .ok (user.id, t.id)
      else .error (.validationError "Invalid or expired reset token.")
    | _ :: _ :: _ => .error .multipleObjectsReturned

/-- Writes of `UserService.reset_password` in source order:
`user.set_password(new_password); user.save()` first, then
`reset_token.save()` with `is_used = True`.  Neither is inside a
transaction. -/
def reset_password_writes (db : DB) (email token newPw : String) (now : Nat) :
    List Write :=
  match reset_password_check db email token now with
  | .ok (uid, tid) => [.setPassword uid newPw, .markTokenUsed tid]
  | .error _ => []

/-- Source `UserService.reset_password(email, token, new_password)`. -/
def reset_password (db : DB) (email token newPw : String) (now : Nat) :
    DB × Except Err Unit :=
  match reset_password_check db email token now with
  | .error e => (db, .error e)
  | .ok (uid, tid) =>
    (applyWrites db [.setPassword uid newPw, .markTokenUsed tid], .ok ())

/-- State reached when execution of `reset_password` stops after the first
`k` committed writes. -/
def reset_password_crash (db : DB) (email token newPw : String) (now k : Nat) : DB :=
  applyWrites db ((reset_password_writes db email token newPw now).take k)

/-- Parsed JSON body returned by the Google userinfo endpoint
(`https://www.googleapis.com/oauth2/v2/userinfo`); absent JSON keys are
`none` (`dict.get` in the source). -/
structure GoogleUserInfo where
  email : Option String
  verified_email : Option Bool
  given_name : Option String
  family_name : Option String
  picture : Option String
  deriving Repr, DecidableEq

/-- Python truthiness test `not user_info.get(key)` for a string field:
true when the key is absent or the value is the empty string. -/
def pyFalsyStr : Option String → Bool
  | none => true
  | some s => s == ""

/-- Python truthiness test `not user_info.get(key)` for a boolean field. -/
def pyFalsyBool : Option Bool → Bool
  | none => true
  | some b => !b

/-- Outcome of the outbound `requests.get` call to the provider: either an
HTTP response with a status code and parsed body, or a
`requests.RequestException` (timeout, DNS failure, connection reset). -/
inductive ProviderResult where
  | httpResponse (status : Nat) (body : GoogleUserInfo)
  | requestException
  deriving Repr, DecidableEq

/-- Source `UserService._get_google_user_info`: non-200 statuses, missing
email, and provider-unverified email each raise `AuthenticationFailed`
inside the `try` block (an `AuthenticationFailed` is not a
`requests.RequestException`, so it propagates unchanged), and any
`requests.RequestException` is caught and re-raised as
`AuthenticationFailed`. -/
def get_google_user_info : ProviderResult → Except Err GoogleUserInfo
  | .requestException =>
      .error (.authenticationFailed "Failed to verify access token with Google")
  | .httpResponse status body =>
      if status ≠ 200 then .error (.authenticationFailed "Invalid access token")
      else if pyFalsyStr body.email then
        .error (.authenticationFailed "Email not provided by Google")
      else if pyFalsyBool body.verified_email then
        .error (.authenticationFailed "Email not verified by Google")
      else .ok body

/-- Display name derived by `_get_or_create_google_user`:
`f"given family".strip() or email.split("@")[0]`. -/
def google_display_name (info : GoogleUserInfo) (email : String) : String :=
  let n := String.mk (trimChars
    ((info.given_name.getD "") ++ " " ++ (info.family_name.getD "")).data)
  if n = "" then String.mk (email.data.takeWhile (fun c => !(c == '@'))) else n

/-- Source `UserService._get_or_create_google_user` under the standard
interleaving semantics of its two database round-trips: `dbGet` is the
state seen by `User.objects.get(email=email)` and `dbCreate` the state
seen by the subsequent `create_user` (a concurrent request may commit a
row in between; a sequential call has `dbGet = dbCreate`).  The source
wraps only the create in `transaction.atomic()` and has no handler for
`IntegrityError`, so a unique-constraint violation rolls the insert back
and propagates. -/
def get_or_create_google_user2 (dbGet dbCreate : DB) (info : GoogleUserInfo) :
    DB × Except Err User :=
  match findUser dbGet.users (info.email.getD "") with
  | some u => (dbCreate, .ok u)
  | none =>
    match create_user dbCreate (info.email.getD "")
        (google_display_name info (info.email.getD "")) none info.picture true with
    | .ok (db2, u) => (db2, .ok u)
    | .error e => (dbCreate, .error e)

/-- Sequential (single-request) run of `_get_or_create_google_user`. -/
def get_or_create_google_user (db : DB) (info : GoogleUserInfo) :
    DB × Except Err User :=
  get_or_create_google_user2 db db info

/-- Source `UserService.authenticate_with_google`: fetch the provider user
info, then get-or-create the local user (JWT minting afterwards is
stateless signing and is not modelled). -/
def authenticate_with_google (db : DB) (pr : ProviderResult) :
    DB × Except Err User :=
  match get_google_user_info pr with
  | .error e => (db, .error e)
  | .ok info => get_or_create_google_user db info

/-- HTTP response shape produced by `common/responses.py`; the `user_id`
field stands for the serialized user payload of a success response. -/
structure HttpResponse where
  status : Nat
  message : Option String
  detail : Option String
  error_code : Option String
  user_id : Option Nat
  deriving Repr, DecidableEq

/-- Source `common.responses.error_response` (status 400 by default). -/
def error_response (detail : String) (code : String) : HttpResponse :=
  { status := 400, message := none, detail := some detail,
    error_code := some code, user_id := none }

/-- Source `common.responses.service_unavailable_response` (status 503). -/
def service_unavailable_response (detail : String) (code : String) : HttpResponse :=
  { status := 503, message := none, detail := some detail,
    error_code := some code, user_id := none }

/-- Source `common.responses.internal_server_error_response` (status 500). -/
def internal_server_error_response (detail : String) (code : String) : HttpResponse :=
  { status := 500, message := none, detail := some detail,
    error_code := some code, user_id := none }

/-- Request body for `POST /auth/reset-password`; absent JSON keys are
`none`. -/
structure ResetPasswordRequest where
  email : Option String
  token : Option String
  new_password : Option String
  new_password_confirm : Option String
  deriving Repr, DecidableEq

/-- Source `ResetPasswordSerializer`: requires non-blank `token`,
`new_password` and `new_password_confirm` and equal passwords.  There is
no `email` field (extra body keys are ignored by DRF); the
settings-dependent `validate_password` strength validators are not
modelled, which only enlarges the set of accepted requests. -/
def reset_password_serializer_valid (r : ResetPasswordRequest) : Bool :=
  match r.token, r.new_password, r.new_password_confirm with
  | some t, some p, some c => !(t == "") && !(p == "") && !(c == "") && p == c
  | _, _, _ => false

/-- Source `ResetPasswordView.post`.  After successful serializer
validation the view runs
`UserService.reset_password(validated["token"], validated["new_password"])`
which supplies only two positional arguments to the three-parameter
service `reset_password(email, token, new_password)`; Python raises
`TypeError` before any service code executes, and the view catches it
with its generic `except Exception` handler, returning 500. -/
def ResetPasswordView_post (db : DB) (r : ResetPasswordRequest) :
    DB × HttpResponse :=
  if !reset_password_serializer_valid r then
    (db, error_response "Serializer validation failed." "VALIDATION_ERROR")
  else
    (db, internal_server_error_response
      "An unexpected error occurred during password reset."
      "PASSWORD_RESET_ERROR")

/-- Request body for `POST /auth/register`. -/
structure RegisterRequest where
  email : String
  name : String
  password : Option String
  photo_url : Option String
  deriving Repr, DecidableEq

/-- Shape checks of `RegisterSerializer` other than the email-availability
check: `EmailField` and `CharField` reject blank values (the
settings-dependent password strength validators are not modelled). -/
def register_serializer_shape_valid (r : RegisterRequest) : Bool :=
  !(r.email == "") && !(r.name == "")

/-- Source `RegisterView.create`: serializer validation (including the
`validate_email` availability check), then inside `transaction.atomic()`
the user row is created and `send_verification_email` is called; an
`EmailSendError` escaping the block rolls the whole transaction back and
maps to 503 with code `EMAIL_SERVICE_ERROR`, any other exception to 500.
On success the view returns 201 with the serialized user and fresh JWT
tokens. -/
def RegisterView_create (db : DB) (r : RegisterRequest) (newCode : String)
    (now : Nat) (emailOk : Bool) : DB × HttpResponse :=
  if !register_serializer_shape_valid r then
    (db, error_response "Serializer validation failed." "VALIDATION_ERROR")
  else if !is_email_available db r.email then
    (db, error_response "This email is already in use." "VALIDATION_ERROR")
  else
    match create_user db r.email r.name r.password r.photo_url false with
    | .error _ =>
        (db, internal_server_error_response
          "An unexpected error occurred during registration."
          "REGISTRATION_ERROR")
    | .ok (db1, u) =>
      match send_verification_email db1 u newCode now emailOk with
      | (_, .error .emailSendError) =>
          (db, service_unavailable_response
            "User registration failed due to email service error. Please try again later."
            "EMAIL_SERVICE_ERROR")
      | (_, .error _) =>
          (db, internal_server_error_response
            "An unexpected error occurred during registration."
            "REGISTRATION_ERROR")
      | (db2, .ok _) =>
          (db2, { status := 201,
                  message := some "A verification code has been sent to your email.",
                  detail := none, error_code := none, user_id := some u.id })

/-!
Concrete fixtures used by witnesses and counterexamples.  Error-message
strings throughout this file follow `users/constants.py`, with the single
licence that contractions are written out (the source writes the message
about social-auth accounts with a contraction of "does not").
-/

/-- Fixture: a password account, email not yet verified. -/
def aliceU : User :=
  { id := 1, email := "alice@example.com", name := "Alice", password := some "oldpw",
    email_verified := false, photo_url := none }

/-- Fixture: an unused, unexpired 4-digit email-verification code for `aliceU`. -/
def vTok1 : VerificationToken :=
  { id := 1, userId := 1, token := "1234", token_type := .email_verification,
    created_at := 0, expires_at := 15, is_used := false }

/-- Fixture: an unused, unexpired password-reset token for `aliceU`. -/
def rTok1 : VerificationToken :=
  { id := 1, userId := 1, token := "tok123", token_type := .password_reset,
    created_at := 0, expires_at := 60, is_used := false }

/-- Fixture: database holding `aliceU` and her live verification code. -/
def dbV0 : DB := { users := [aliceU], tokens := [vTok1], nextUserId := 2, nextTokenId := 2 }

/-- Fixture: database holding `aliceU` and her live reset token. -/
def dbR0 : DB := { users := [aliceU], tokens := [rTok1], nextUserId := 2, nextTokenId := 2 }

/-- Fixture: empty database. -/
def dbEmpty : DB := { users := [], tokens := [], nextUserId := 1, nextTokenId := 1 }

/-- Fixture: `aliceU` with her email already verified. -/
def aliceVerified : User := { aliceU with email_verified := true }

/-- Fixture: database in which the account is already verified but the code
row is still live. -/
def dbVerified : DB :=
  { users := [aliceVerified], tokens := [vTok1], nextUserId := 2, nextTokenId := 2 }

/-- Fixture: Google userinfo payload for a verified address. -/
def infoAlice : GoogleUserInfo :=
  { email := some "alice@example.com", verified_email := some true,
    given_name := some "Alice", family_name := some "W", picture := none }

/-- Fixture: database already holding the social-auth user for
`infoAlice`, as committed by a concurrent request. -/
def dbAlice : DB :=
  { users := [{ id := 1, email := "alice@example.com", name := "Alice W",
                password := none, email_verified := true, photo_url := none }],
    tokens := [], nextUserId := 2, nextTokenId := 1 }

/-!
Helper lemmas about the embedded query and update primitives.
-/

/-- Mapping an email-preserving row update over the user table commutes
with the lookup by email. -/
theorem findUser_map_of_email_eq (f : User → User)
    (hf : ∀ u, (f u).email = u.email) (l : List User) (e : String) :
    findUser (l.map f) e = (findUser l e).map f := by
  unfold findUser
  rw [List.find?_map]
  have hp : ((fun u => u.email == e) ∘ f) = (fun u => u.email == e) := by
    funext u
    simp [Function.comp, hf u]
  rw [hp]

/-- Lookup by email over an appended table, when the first part has no
match. -/
theorem findUser_append_of_none (l1 l2 : List User) (e : String)
    (h : findUser l1 e = none) :
    findUser (l1 ++ l2) e = findUser l2 e := by
  unfold findUser at *
  rw [List.find?_append, h]
  rfl

/-- Filtering after a row update that the filter predicate cannot see
commutes with the update. -/
theorem filter_map_of_pred_eq (g : VerificationToken → VerificationToken)
    (p : VerificationToken → Bool) (hp : ∀ t, p (g t) = p t)
    (l : List VerificationToken) : (l.map g).filter p = (l.filter p).map g := by
  rw [List.filter_map]
  have hc : (p ∘ g) = p := funext hp
  rw [hc]

/-- Inversion of the validation phase of `reset_password`. -/
theorem reset_check_ok_inv (db : DB) (e tok : String) (now uid tid : Nat)
    (h : reset_password_check db e tok now = .ok (uid, tid)) :
    ∃ u t, findUser db.users e = some u ∧ resetMatches db u.id tok = [t] ∧
      t.is_valid now = true ∧ uid = u.id ∧ tid = t.id := by
  cases hfu : findUser db.users e with
  | none =>
    unfold reset_password_check at h
    simp only [hfu] at h
    exact Except.noConfusion h
  | some u =>
    unfold reset_password_check at h
    simp only [hfu] at h
    cases hm : resetMatches db u.id tok with
    | nil =>
      simp only [hm] at h
      exact Except.noConfusion h
    | cons t rest =>
      cases rest with
      | nil =>
        simp only [hm] at h
        by_cases hv : t.is_valid now = true
        · rw [if_pos hv] at h
          simp only [Except.ok.injEq, Prod.mk.injEq] at h
          exact ⟨u, t, rfl, hm, hv, h.1.symm, h.2.symm⟩
        · rw [if_neg hv] at h
          exact Except.noConfusion h
      | cons t2 rest2 =>
        simp only [hm] at h
        exact Except.noConfusion h

/-- Inversion of the validation phase of `verify_email`. -/
theorem verify_check_ok_inv (db : DB) (e c : String) (now uid tid : Nat)
    (h : verify_email_check db e c now = .ok (uid, tid)) :
    ∃ u t, findUser db.users e = some u ∧ u.email_verified = false ∧
      verifyMatches db u.id c = [t] ∧ t.is_valid now = true ∧
      uid = u.id ∧ tid = t.id := by
  cases hfu : findUser db.users e with
  | none =>
    unfold verify_email_check at h
    simp only [hfu] at h
    exact Except.noConfusion h
  | some u =>
    unfold verify_email_check at h
    simp only [hfu] at h
    by_cases hev : u.email_verified = true
    · rw [if_pos hev] at h
      exact Except.noConfusion h
    · rw [if_neg hev] at h
      cases hm : verifyMatches db u.id c with
      | nil =>
        simp only [hm] at h
        exact Except.noConfusion h
      | cons t rest =>
        cases rest with
        | nil =>
          simp only [hm] at h
          by_cases hv : t.is_valid now = true
          · rw [if_pos hv] at h
            simp only [Except.ok.injEq, Prod.mk.injEq] at h
            exact ⟨u, t, rfl, by simpa using hev, hm, hv, h.1.symm, h.2.symm⟩
          · rw [if_neg hv] at h
            exact Except.noConfusion h
        | cons t2 rest2 =>
          simp only [hm] at h
          exact Except.noConfusion h

/-- Unfolding the two committed writes of a successful `reset_password`. -/
theorem applyWrites_pw_mark (db : DB) (uid tid : Nat) (pw : String) :
    applyWrites db [.setPassword uid pw, .markTokenUsed tid]
    = { db with users := db.users.map (updPw uid pw),
                tokens := db.tokens.map (updUsed tid) } := rfl

/-- Unfolding the two committed writes of a successful `verify_email`. -/
theorem applyWrites_verify_mark (db : DB) (uid tid : Nat) :
    applyWrites db [.setEmailVerified uid, .markTokenUsed tid]
    = { db with users := db.users.map (updVerified uid),
                tokens := db.tokens.map (updUsed tid) } := rfl

/-- C8: `authenticate_with_google` raises `AuthenticationFailed` — leaving
the database unchanged, so no user is created — whenever the provider
userinfo call returns a non-200 response, the body lacks a (non-empty)
email field, the provider reports the email unverified, or a network-level
`requests.RequestException` occurs; in each case the result is the
`authenticationFailed` error class, never a raw transport failure. -/
theorem C8_google_auth_failures (db : DB) (s : Nat) (b : GoogleUserInfo) :
    (s ≠ 200 →
      authenticate_with_google db (.httpResponse s b)
        = (db, .error (.authenticationFailed "Invalid access token")))
    ∧ (pyFalsyStr b.email = true →
      authenticate_with_google db (.httpResponse 200 b)
        = (db, .error (.authenticationFailed "Email not provided by Google")))
    ∧ (pyFalsyStr b.email = false → pyFalsyBool b.verified_email = true →
      authenticate_with_google db (.httpResponse 200 b)
        = (db, .error (.authenticationFailed "Email not verified by Google")))
    ∧ authenticate_with_google db .requestException
        = (db, .error (.authenticationFailed "Failed to verify access token with Google")) := by
  refine ⟨?_, ?_, ?_, rfl⟩
  · intro h
    have hg : get_google_user_info (.httpResponse s b)
        = .error (.authenticationFailed "Invalid access token") := by
      simp only [get_google_user_info]
      rw [if_pos h]
    unfold authenticate_with_google
    simp only [hg]
  · intro h
    have hg : get_google_user_info (.httpResponse 200 b)
        = .error (.authenticationFailed "Email not provided by Google") := by
      simp only [get_google_user_info]
      rw [if_neg (by simp), if_pos h]
    unfold authenticate_with_google
    simp only [hg]
  · intro h1 h2
    have hg : get_google_user_info (.httpResponse 200 b)
        = .error (.authenticationFailed "Email not verified by Google") := by
      simp only [get_google_user_info]
      rw [if_neg (by simp), if_neg (by simp [h1]), if_pos h2]
    unfold authenticate_with_google
    simp only [hg]

/-- Witness for C8 at a concrete non-200 response and a concrete network
failure. -/
theorem C8_google_auth_failures_witness :
    authenticate_with_google dbEmpty (ProviderResult.httpResponse 401 infoAlice)
      = (dbEmpty, .error (.authenticationFailed "Invalid access token"))
    ∧ authenticate_with_google dbEmpty ProviderResult.requestException
      = (dbEmpty, .error (.authenticationFailed "Failed to verify access token with Google")) :=
  ⟨(C8_google_auth_failures dbEmpty 401 infoAlice).1 (by decide),
   (C8_google_auth_failures dbEmpty 401 infoAlice).2.2.2⟩

/-- C10: `resend_verification_email` raises the distinct user-not-found
message for an unknown email and the distinct already-verified message for
a verified account, and both messages differ from the generic
invalid-or-expired-code message — so the operation observably reveals
whether an account exists for the supplied email. -/
theorem C10_resend_reveals_account_existence (db : DB) (e code : String)
    (now : Nat) (emailOk : Bool) :
    (findUser db.users e = none →
      resend_verification_email db e code now emailOk
        = (db, .error (.validationError "User with this email does not exist.")))
    ∧ (∀ u, findUser db.users e = some u → u.email_verified = true →
      resend_verification_email db e code now emailOk
        = (db, .error (.validationError "Email is already verified.")))
    ∧ "User with this email does not exist." ≠ "Invalid or expired verification code."
    ∧ "Email is already verified." ≠ "Invalid or expired verification code." := by
  refine ⟨?_, ?_, by decide, by decide⟩
  · intro h
    unfold resend_verification_email
    simp only [h]
  · intro u hu hv
    unfold resend_verification_email send_verification_email
    simp only [hu, hv, if_true]

/-- Witness for C10 at a concrete unknown email and a concrete verified
account. -/
theorem C10_resend_reveals_account_existence_witness :
    resend_verification_email dbEmpty "ghost@example.com" "1234" 0 true
      = (dbEmpty, .error (.validationError "User with this email does not exist."))
    ∧ resend_verification_email dbVerified "alice@example.com" "5678" 0 true
      = (dbVerified, .error (.validationError "Email is already verified.")) :=
  ⟨(C10_resend_reveals_account_existence dbEmpty "ghost@example.com" "1234" 0 true).1 rfl,
   (C10_resend_reveals_account_existence dbVerified "alice@example.com" "5678" 0 true).2.1
     aliceVerified rfl rfl⟩

/-- Inversion of a successful `create_user`. -/
theorem create_user_ok_inv (db : DB) (email name : String) (pw purl : Option String)
    (ev : Bool) (db2 : DB) (u : User)
    (h : create_user db email name pw purl ev = .ok (db2, u)) :
    u = { id := db.nextUserId, email := normalize_email email, name := name,
          password := pw, email_verified := ev, photo_url := purl }
    ∧ db2 = { db with users := db.users ++ [u], nextUserId := db.nextUserId + 1 }
    ∧ db.users.any (fun w => w.email == normalize_email email) = false := by
  unfold create_user at h
  by_cases h1 : email = ""
  · rw [if_pos h1] at h
    exact Except.noConfusion h
  · rw [if_neg h1] at h
    by_cases h2 : name = ""
    · rw [if_pos h2] at h
      exact Except.noConfusion h
    · rw [if_neg h2] at h
      by_cases h3 : db.users.any (fun w => w.email == normalize_email email) = true
      · rw [if_pos h3] at h
        exact Except.noConfusion h
      · rw [if_neg h3] at h
        simp only [Except.ok.injEq, Prod.mk.injEq] at h
        refine ⟨h.2.symm, ?_, by simpa using h3⟩
        rw [← h.1, h.2]

/-- C2 (bug evidence): with a live reset token in the store and a
well-formed request, the reset-password endpoint answers 500 and changes
nothing, even though the service, called with the documented three
arguments, would succeed — the view invokes `reset_password` with two
positional arguments, so every validated request dies with `TypeError`
inside the generic `except Exception` handler. -/
theorem C2_reset_password_endpoint_500 :
    reset_password_serializer_valid
      { email := some "alice@example.com", token := some "tok123",
        new_password := some "Newpass123", new_password_confirm := some "Newpass123" } = true
    ∧ (reset_password dbR0 "alice@example.com" "tok123" "Newpass123" 0).2 = .ok ()
    ∧ ResetPasswordView_post dbR0
        { email := some "alice@example.com", token := some "tok123",
          new_password := some "Newpass123", new_password_confirm := some "Newpass123" }
      = (dbR0, internal_server_error_response
          "An unexpected error occurred during password reset." "PASSWORD_RESET_ERROR") := by
  refine ⟨rfl, rfl, rfl⟩

/-- C3 counterexample: a run against a nonexistent account and a run
against an already-verified account are observationally different — the
latter returns the distinct already-verified message instead of the
generic invalid-or-expired one, refuting the claim that all four failure
causes produce the same error. -/
theorem C3_already_verified_distinct_cex :
    verify_email dbEmpty "alice@example.com" "1234" 0
      = (dbEmpty, .error (.validationError "Invalid or expired verification code."))
    ∧ verify_email dbVerified "alice@example.com" "1234" 0
      = (dbVerified, .error (.validationError "Email is already verified."))
    ∧ Err.validationError "Email is already verified."
        ≠ Err.validationError "Invalid or expired verification code." := by
  refine ⟨rfl, rfl, by decide⟩

/-- C3 amended: the three causes nonexistent user, mismatched code and
expired code all produce the identical generic invalid-or-expired error
and leave the database unchanged (no enumeration signal among them), while
an already-verified account produces the distinct already-verified
error. -/
theorem C3_generic_error_classes (db : DB) (e c : String) (now : Nat) :
    (findUser db.users e = none →
      verify_email db e c now
        = (db, .error (.validationError "Invalid or expired verification code.")))
    ∧ (∀ u, findUser db.users e = some u → u.email_verified = false →
        verifyMatches db u.id c = [] →
      verify_email db e c now
        = (db, .error (.validationError "Invalid or expired verification code.")))
    ∧ (∀ u t, findUser db.users e = some u → u.email_verified = false →
        verifyMatches db u.id c = [t] → t.is_valid now = false →
      verify_email db e c now
        = (db, .error (.validationError "Invalid or expired verification code.")))
    ∧ (∀ u, findUser db.users e = some u → u.email_verified = true →
      verify_email db e c now
        = (db, .error (.validationError "Email is already verified."))) := by
  refine ⟨?_, ?_, ?_, ?_⟩
  · intro h
    simp only [verify_email, verify_email_check, h]
  · intro u hu hv hm
    simp only [verify_email, verify_email_check, hu, hv, hm]
    simp
  · intro u t hu hv hm hval
    simp only [verify_email, verify_email_check, hu, hv, hm, hval]
    simp
  · intro u hu hv
    simp only [verify_email, verify_email_check, hu, hv]
    simp

/-- Witness for the amended C3 at concrete states: unknown account,
mismatched code, expired code. -/
theorem C3_generic_error_classes_witness :
    verify_email dbEmpty "alice@example.com" "1234" 0
      = (dbEmpty, .error (.validationError "Invalid or expired verification code."))
    ∧ verify_email dbV0 "alice@example.com" "9999" 0
      = (dbV0, .error (.validationError "Invalid or expired verification code."))
    ∧ verify_email dbV0 "alice@example.com" "1234" 20
      = (dbV0, .error (.validationError "Invalid or expired verification code.")) :=
  ⟨(C3_generic_error_classes dbEmpty "alice@example.com" "1234" 0).1 rfl,
   (C3_generic_error_classes dbV0 "alice@example.com" "9999" 0).2.1 aliceU rfl rfl rfl,
   (C3_generic_error_classes dbV0 "alice@example.com" "1234" 20).2.2.1 aliceU vTok1
     rfl rfl rfl rfl⟩

/-- C7 counterexample: interleaving in which the lookup misses but a
concurrent request commits the user before the create step — the source
has no handler for the unique-constraint violation, so the call fails
with `IntegrityError` instead of re-fetching and returning the existing
user. -/
theorem C7_no_refetch_on_conflict_cex :
    findUser dbAlice.users "alice@example.com"
      = some { id := 1, email := "alice@example.com", name := "Alice W",
               password := none, email_verified := true, photo_url := none }
    ∧ get_or_create_google_user2 dbEmpty dbAlice infoAlice
      = (dbAlice, .error .integrityError) := ⟨rfl, rfl⟩

/-- C7 amended: sequentially, `_get_or_create_google_user` is idempotent —
a second call with the same (already normalized) provider email returns
the same user and leaves the store unchanged — and the unique constraint
prevents a duplicate row whenever the email already exists at create time
(the conflicting create fails instead of inserting); but a conflict is
not resolved by re-fetching (see the counterexample). -/
theorem C7_google_get_or_create_sequential_idempotent :
    (∀ (db db' : DB) (info : GoogleUserInfo) (u : User),
      normalize_email (info.email.getD "") = info.email.getD "" →
      get_or_create_google_user db info = (db', .ok u) →
      get_or_create_google_user db' info = (db', .ok u))
    ∧ (∀ (dbGet dbCreate : DB) (info : GoogleUserInfo),
      (∃ w ∈ dbCreate.users, w.email = normalize_email (info.email.getD "")) →
      ((get_or_create_google_user2 dbGet dbCreate info).1).users = dbCreate.users) := by
  constructor
  · intro db db' info u hn h
    unfold get_or_create_google_user get_or_create_google_user2 at h ⊢
    cases hf : findUser db.users (info.email.getD "") with
    | some w =>
      simp only [hf] at h
      simp only [Prod.mk.injEq, Except.ok.injEq] at h
      rw [← h.1, ← h.2]
      simp only [hf]
    | none =>
      simp only [hf] at h
      cases hcr : create_user db (info.email.getD "")
          (google_display_name info (info.email.getD "")) none info.picture true with
      | error err =>
        simp only [hcr] at h
        simp at h
      | ok p =>
        obtain ⟨db2, u2⟩ := p
        simp only [hcr] at h
        simp only [Prod.mk.injEq, Except.ok.injEq] at h
        obtain ⟨hdb, hu⟩ := h
        obtain ⟨hu2, hdb2, _⟩ := create_user_ok_inv _ _ _ _ _ _ _ _ hcr
        subst hdb hu
        have hmail : u2.email = info.email.getD "" := by
          rw [hu2]
          exact hn
        have hfind2 : findUser db2.users (info.email.getD "") = some u2 := by
          rw [hdb2]
          show findUser (db.users ++ [u2]) (info.email.getD "") = some u2
          rw [findUser_append_of_none _ _ _ hf]
          unfold findUser
          rw [List.find?_cons_of_pos]
          rw [hmail]
          exact beq_self_eq_true _
        simp only [hfind2]
  · intro dbGet dbCreate info hex
    unfold get_or_create_google_user2
    cases hf : findUser dbGet.users (info.email.getD "") with
    | some w => simp only [hf]
    | none =>
      simp only [hf]
      cases hcr : create_user dbCreate (info.email.getD "")
          (google_display_name info (info.email.getD "")) none info.picture true with
      | error err => simp only [hcr]
      | ok p =>
        obtain ⟨db2, u2⟩ := p
        obtain ⟨w, hw, hwe⟩ := hex
        obtain ⟨_, _, hany⟩ := create_user_ok_inv _ _ _ _ _ _ _ _ hcr
        exfalso
        have : dbCreate.users.any
            (fun x => x.email == normalize_email (info.email.getD "")) = true := by
          rw [List.any_eq_true]
          exact ⟨w, hw, by rw [hwe]; exact beq_self_eq_true _⟩
        rw [this] at hany
        exact Bool.noConfusion hany

/-- Witness for the amended C7: a first login creates the user, a second
sequential login returns the same row without duplicating it. -/
theorem C7_google_get_or_create_sequential_idempotent_witness :
    get_or_create_google_user
      (get_or_create_google_user dbEmpty infoAlice).1 infoAlice
    = ((get_or_create_google_user dbEmpty infoAlice).1,
       .ok { id := 1, email := "alice@example.com", name := "Alice W",
             password := none, email_verified := true, photo_url := none }) :=
  (C7_google_get_or_create_sequential_idempotent).1 dbEmpty
    (get_or_create_google_user dbEmpty infoAlice).1 infoAlice
    { id := 1, email := "alice@example.com", name := "Alice W",
      password := none, email_verified := true, photo_url := none }
    (by decide) rfl

/-- Shared post-state facts about the invalidate-then-mint sequence of
section 4.1: the fresh token is live, it is the only unused token of its
purpose for the user, and every pre-existing token of that purpose is now
used and invalid. -/
theorem invalidate_then_create_props (db : DB) (uid : Nat) (value : String)
    (tt : TokenType) (now : Nat) :
    (({ id := db.nextTokenId, userId := uid, token := value, token_type := tt,
        created_at := now, expires_at := now + expiryWindow tt,
        is_used := false } : VerificationToken)
      ∈ ((createToken (invalidateTokens db uid tt) uid value tt now).1).tokens)
    ∧ (∀ t ∈ ((createToken (invalidateTokens db uid tt) uid value tt now).1).tokens,
        t.userId = uid → t.token_type = tt → t.is_used = false →
        t = { id := db.nextTokenId, userId := uid, token := value, token_type := tt,
              created_at := now, expires_at := now + expiryWindow tt, is_used := false })
    ∧ (∀ t ∈ db.tokens, t.userId = uid → t.token_type = tt →
        ∃ t' ∈ ((createToken (invalidateTokens db uid tt) uid value tt now).1).tokens,
          t'.id = t.id ∧ t'.is_used = true ∧ t'.is_valid now = false) := by
  have htoks : ((createToken (invalidateTokens db uid tt) uid value tt now).1).tokens
      = db.tokens.map (invalidateRow uid tt)
        ++ [{ id := db.nextTokenId, userId := uid, token := value, token_type := tt,
              created_at := now, expires_at := now + expiryWindow tt,
              is_used := false }] := rfl
  refine ⟨?_, ?_, ?_⟩
  · rw [htoks]
    exact List.mem_append_right _ (List.mem_singleton_self _)
  · intro t ht h1 h2 h3
    rw [htoks] at ht
    rcases List.mem_append.mp ht with hin | hin
    · obtain ⟨s, hs, hts⟩ := List.mem_map.mp hin
      exfalso
      unfold invalidateRow at hts
      by_cases hc : (s.userId == uid && s.token_type == tt && s.is_used == false) = true
      · rw [if_pos hc] at hts
        rw [← hts] at h3
        simp at h3
      · rw [if_neg hc] at hts
        subst hts
        simp [h1, h2, h3] at hc
    · simpa using hin
  · intro t ht h1 h2
    refine ⟨invalidateRow uid tt t, ?_, ?_, ?_, ?_⟩
    · rw [htoks]
      exact List.mem_append_left _ (List.mem_map_of_mem _ ht)
    · unfold invalidateRow
      by_cases hc : (t.userId == uid && t.token_type == tt && t.is_used == false) = true
      · rw [if_pos hc]
      · rw [if_neg hc]
    · unfold invalidateRow
      by_cases hc : (t.userId == uid && t.token_type == tt && t.is_used == false) = true
      · rw [if_pos hc]
      · rw [if_neg hc]
        simp [h1, h2] at hc
        exact hc
    · unfold invalidateRow
      by_cases hc : (t.userId == uid && t.token_type == tt && t.is_used == false) = true
      · rw [if_pos hc]
        simp [VerificationToken.is_valid]
      · rw [if_neg hc]
        simp [h1, h2] at hc
        simp [VerificationToken.is_valid, hc]

/-- C1: issuing a new verification token of either purpose
(`send_verification_email` for email codes, `request_password_reset` for
reset tokens) first marks every prior unused token of the same
(user, purpose) pair used, so that immediately after issuance the fresh
token is the only unused token of that purpose for that user, and every
previously issued token of that purpose is used with `is_valid = false`. -/
theorem C1_issuance_invalidates_prior_tokens :
    (∀ (db : DB) (user : User) (code : String) (now : Nat) (emailOk : Bool),
      user.email_verified = false →
      (({ id := db.nextTokenId, userId := user.id, token := code,
          token_type := TokenType.email_verification, created_at := now,
          expires_at := now + 15, is_used := false } : VerificationToken)
        ∈ ((send_verification_email db user code now emailOk).1).tokens)
      ∧ (∀ t ∈ ((send_verification_email db user code now emailOk).1).tokens,
          t.userId = user.id → t.token_type = TokenType.email_verification →
          t.is_used = false →
          t = { id := db.nextTokenId, userId := user.id, token := code,
                token_type := TokenType.email_verification, created_at := now,
                expires_at := now + 15, is_used := false })
      ∧ (∀ t ∈ db.tokens, t.userId = user.id →
          t.token_type = TokenType.email_verification →
          ∃ t' ∈ ((send_verification_email db user code now emailOk).1).tokens,
            t'.id = t.id ∧ t'.is_used = true ∧ t'.is_valid now = false))
    ∧ (∀ (db : DB) (user : User) (email newTok : String) (now : Nat) (emailOk : Bool),
      findUser db.users email = some user → user.has_usable_password = true →
      (({ id := db.nextTokenId, userId := user.id, token := newTok,
          token_type := TokenType.password_reset, created_at := now,
          expires_at := now + 60, is_used := false } : VerificationToken)
        ∈ ((request_password_reset db email newTok now emailOk).1).tokens)
      ∧ (∀ t ∈ ((request_password_reset db email newTok now emailOk).1).tokens,
          t.userId = user.id → t.token_type = TokenType.password_reset →
          t.is_used = false →
          t = { id := db.nextTokenId, userId := user.id, token := newTok,
                token_type := TokenType.password_reset, created_at := now,
                expires_at := now + 60, is_used := false })
      ∧ (∀ t ∈ db.tokens, t.userId = user.id →
          t.token_type = TokenType.password_reset →
          ∃ t' ∈ ((request_password_reset db email newTok now emailOk).1).tokens,
            t'.id = t.id ∧ t'.is_used = true ∧ t'.is_valid now = false)) := by
  constructor
  · intro db user code now emailOk hv
    have hpost : (send_verification_email db user code now emailOk).1
        = (createToken (invalidateTokens db user.id .email_verification)
            user.id code .email_verification now).1 := by
      unfold send_verification_email
      rw [if_neg (by simp [hv])]
      cases emailOk <;> rfl
    have h := invalidate_then_create_props db user.id code .email_verification now
    rw [hpost]
    exact h
  · intro db user email newTok now emailOk hfu hup
    have hpost : (request_password_reset db email newTok now emailOk).1
        = (createToken (invalidateTokens db user.id .password_reset)
            user.id newTok .password_reset now).1 := by
      unfold request_password_reset
      simp only [hfu]
      rw [if_neg (by simp [hup])]
      cases emailOk <;> rfl
    have h := invalidate_then_create_props db user.id newTok .password_reset now
    rw [hpost]
    exact h

/-- Witness for C1: reissuing a code while one is live leaves the fresh
code as the only unused one, and the old live code row becomes used. -/
theorem C1_issuance_invalidates_prior_tokens_witness :
    (({ id := 2, userId := 1, token := "5678",
        token_type := TokenType.email_verification, created_at := 1,
        expires_at := 16, is_used := false } : VerificationToken)
      ∈ ((send_verification_email dbV0 aliceU "5678" 1 true).1).tokens)
    ∧ (∃ t' ∈ ((send_verification_email dbV0 aliceU "5678" 1 true).1).tokens,
        t'.id = vTok1.id ∧ t'.is_used = true ∧ t'.is_valid 1 = false) :=
  ⟨((C1_issuance_invalidates_prior_tokens).1 dbV0 aliceU "5678" 1 true rfl).1,
   ((C1_issuance_invalidates_prior_tokens).1 dbV0 aliceU "5678" 1 true rfl).2.2
     vTok1 (List.mem_singleton_self _) rfl rfl⟩

/-- C9: registration and verification-email dispatch form one atomic unit.
When the email service fails, the whole transaction is rolled back — the
response is 503 with the distinct `EMAIL_SERVICE_ERROR` code and the
database is exactly the pre-request state, so no user row (nor token row)
remains.  When dispatch succeeds, the endpoint answers 201 carrying the
new user, who is committed to the store. -/
theorem C9_register_email_atomic (db : DB) (r : RegisterRequest) (code : String)
    (now : Nat)
    (hshape : register_serializer_shape_valid r = true)
    (havail : is_email_available db r.email = true)
    (havailn : db.users.any (fun u => u.email == normalize_email r.email) = false) :
    RegisterView_create db r code now false
      = (db, service_unavailable_response
          "User registration failed due to email service error. Please try again later."
          "EMAIL_SERVICE_ERROR")
    ∧ ((RegisterView_create db r code now true).2).status = 201
    ∧ ((RegisterView_create db r code now true).2).user_id = some db.nextUserId
    ∧ ∃ u ∈ ((RegisterView_create db r code now true).1).users,
        u.id = db.nextUserId ∧ u.email = normalize_email r.email := by
  have hsh := hshape
  unfold register_serializer_shape_valid at hsh
  simp only [Bool.and_eq_true, Bool.not_eq_true', beq_eq_false_iff_ne, ne_eq] at hsh
  have hrunT : RegisterView_create db r code now true
      = ({ users := db.users ++
            [{ id := db.nextUserId, email := normalize_email r.email, name := r.name,
               password := r.password, email_verified := false,
               photo_url := r.photo_url }],
           tokens := db.tokens.map (invalidateRow db.nextUserId .email_verification) ++
            [{ id := db.nextTokenId, userId := db.nextUserId, token := code,
               token_type := .email_verification, created_at := now,
               expires_at := now + 15, is_used := false }],
           nextUserId := db.nextUserId + 1, nextTokenId := db.nextTokenId + 1 },
         { status := 201,
           message := some "A verification code has been sent to your email.",
           detail := none, error_code := none, user_id := some db.nextUserId }) := by
    unfold RegisterView_create create_user
    rw [if_neg (by simp [hshape]), if_neg (by simp [havail]),
        if_neg hsh.1, if_neg hsh.2, if_neg (by simp [havailn])]
    rfl
  refine ⟨?_, ?_, ?_, ?_⟩
  · unfold RegisterView_create create_user
    rw [if_neg (by simp [hshape]), if_neg (by simp [havail]),
        if_neg hsh.1, if_neg hsh.2, if_neg (by simp [havailn])]
    rfl
  · rw [hrunT]
  · rw [hrunT]
  · rw [hrunT]
    exact ⟨{ id := db.nextUserId, email := normalize_email r.email, name := r.name,
             password := r.password, email_verified := false,
             photo_url := r.photo_url },
           List.mem_append_right _ (List.mem_singleton_self _), rfl, rfl⟩

/-- Witness for C9 at a concrete registration request against the empty
store: failure of the email service leaves the store empty with a 503,
success answers 201. -/
theorem C9_register_email_atomic_witness :
    RegisterView_create dbEmpty
      { email := "bob@example.com", name := "Bob", password := some "pw12345",
        photo_url := none } "1234" 0 false
      = (dbEmpty, service_unavailable_response
          "User registration failed due to email service error. Please try again later."
          "EMAIL_SERVICE_ERROR")
    ∧ ((RegisterView_create dbEmpty
        { email := "bob@example.com", name := "Bob", password := some "pw12345",
          photo_url := none } "1234" 0 true).2).status = 201 :=
  ⟨(C9_register_email_atomic dbEmpty
      { email := "bob@example.com", name := "Bob", password := some "pw12345",
        photo_url := none } "1234" 0 rfl rfl (by decide)).1,
   (C9_register_email_atomic dbEmpty
      { email := "bob@example.com", name := "Bob", password := some "pw12345",
        photo_url := none } "1234" 0 rfl rfl (by decide)).2.1⟩

/-- C4 counterexample: the state reached when execution stops between the
two autocommitted saves of `verify_email` (no enclosing transaction in the
source) differs from both the pre-state and the both-writes state: the
user's flag is set while the token row is still unused — refuting
"either both commit or neither does". -/
theorem C4_crash_between_writes_cex :
    verify_email_crash dbV0 "alice@example.com" "1234" 0 1 ≠ dbV0
    ∧ verify_email_crash dbV0 "alice@example.com" "1234" 0 1
        ≠ (verify_email dbV0 "alice@example.com" "1234" 0).1
    ∧ (verify_email_crash dbV0 "alice@example.com" "1234" 0 1).users
        = [{ aliceU with email_verified := true }]
    ∧ (verify_email_crash dbV0 "alice@example.com" "1234" 0 1).tokens = [vTok1] := by
  exact ⟨by decide, by decide, rfl, rfl⟩

/-- C4 amended: `verify_email` performs no write at all on any failing
call (the state is returned unchanged), and on success performs its two
writes sequentially in source order — `email_verified` first, then the
token's `is_used` — without a transaction; the reachable intermediate
states are exactly the pre-state, the flag-only state, and the
both-writes state, so a crash can leave `email_verified` set with the
token unused but never the token used without the flag set. -/
theorem C4_verify_email_write_sequence (db : DB) (e c : String) (now : Nat) :
    (∀ err, (verify_email db e c now).2 = .error err →
      (verify_email db e c now).1 = db)
    ∧ (∀ uid tid, verify_email_check db e c now = .ok (uid, tid) →
        (verify_email db e c now).1
          = applyWrites db [.setEmailVerified uid, .markTokenUsed tid]
        ∧ ∀ k, verify_email_crash db e c now k = db
            ∨ verify_email_crash db e c now k = applyWrite db (.setEmailVerified uid)
            ∨ verify_email_crash db e c now k
                = applyWrites db [.setEmailVerified uid, .markTokenUsed tid]) := by
  constructor
  · intro err herr
    cases hc : verify_email_check db e c now with
    | error e2 =>
      unfold verify_email
      simp only [hc]
    | ok p =>
      obtain ⟨uid, tid⟩ := p
      unfold verify_email at herr
      simp only [hc] at herr
      exact absurd herr (by simp)
  · intro uid tid hc
    constructor
    · unfold verify_email
      simp only [hc]
    · intro k
      unfold verify_email_crash verify_email_writes
      simp only [hc]
      rcases k with _ | _ | n
      · left
        rfl
      · right
        left
        rfl
      · right
        right
        have htake : List.take (n + 2)
            [Write.setEmailVerified uid, Write.markTokenUsed tid]
            = [Write.setEmailVerified uid, Write.markTokenUsed tid] := by
          simp
        rw [htake]

/-- Witness for the amended C4 at the concrete live-code state. -/
theorem C4_verify_email_write_sequence_witness :
    verify_email_check dbV0 "alice@example.com" "1234" 0 = .ok (1, 1)
    ∧ (verify_email dbV0 "alice@example.com" "1234" 0).1
        = applyWrites dbV0 [.setEmailVerified 1, .markTokenUsed 1] :=
  ⟨rfl, ((C4_verify_email_write_sequence dbV0 "alice@example.com" "1234" 0).2 1 1 rfl).1⟩

/-- C5 counterexample: stopping `reset_password` between its two
autocommitted saves leaves the new password committed while the reset
token row is still unused (and, at this time, still satisfies the
validity predicate) — the two writes are not one atomic unit. -/
theorem C5_crash_between_writes_cex :
    (reset_password_crash dbR0 "alice@example.com" "tok123" "newpw" 0 1).users
      = [{ aliceU with password := some "newpw" }]
    ∧ (reset_password_crash dbR0 "alice@example.com" "tok123" "newpw" 0 1).tokens
      = [rTok1]
    ∧ rTok1.is_valid 0 = true
    ∧ reset_password_crash dbR0 "alice@example.com" "tok123" "newpw" 0 1 ≠ dbR0
    ∧ reset_password_crash dbR0 "alice@example.com" "tok123" "newpw" 0 1
        ≠ (reset_password dbR0 "alice@example.com" "tok123" "newpw" 0).1 :=
  ⟨rfl, rfl, rfl, by decide, by decide⟩

/-- C5 amended: `reset_password` raises the invalid-or-expired validation
error exactly when the user is absent, no row matches
(user, token, purpose=password_reset), or the matched row fails the
validity predicate; every failing call leaves the state unchanged; a
successful call stores the new password and then marks the token used as
two sequential autocommitted writes (not one atomic unit — the reachable
intermediate state has the password changed and the token still
unused). -/
theorem C5_reset_password_semantics (db : DB) (e tok newPw : String) (now : Nat) :
    ((reset_password db e tok newPw now).2
        = .error (.validationError "Invalid or expired reset token.")
      ↔ (findUser db.users e = none
         ∨ (∃ u, findUser db.users e = some u ∧ resetMatches db u.id tok = [])
         ∨ (∃ u t, findUser db.users e = some u ∧ resetMatches db u.id tok = [t]
             ∧ t.is_valid now = false)))
    ∧ (∀ err, (reset_password db e tok newPw now).2 = .error err →
        (reset_password db e tok newPw now).1 = db)
    ∧ (∀ uid tid, reset_password_check db e tok now = .ok (uid, tid) →
        (reset_password db e tok newPw now).1
          = applyWrites db [.setPassword uid newPw, .markTokenUsed tid]
        ∧ ∀ k, reset_password_crash db e tok newPw now k = db
            ∨ reset_password_crash db e tok newPw now k
                = applyWrite db (.setPassword uid newPw)
            ∨ reset_password_crash db e tok newPw now k
                = applyWrites db [.setPassword uid newPw, .markTokenUsed tid]) := by
  refine ⟨?_, ?_, ?_⟩
  · cases hfu : findUser db.users e with
    | none =>
      simp only [reset_password, reset_password_check, hfu]
      simp [hfu]
    | some u =>
      cases hm : resetMatches db u.id tok with
      | nil =>
        simp only [reset_password, reset_password_check, hfu, hm]
        simp [hfu, hm]
      | cons t rest =>
        cases rest with
        | nil =>
          by_cases hv : t.is_valid now = true
          · simp only [reset_password, reset_password_check, hfu, hm, hv, if_true]
            simp [hfu, hm, hv]
          · simp only [reset_password, reset_password_check, hfu, hm]
            rw [if_neg hv]
            simp only [Bool.not_eq_true] at hv
            simp [hfu, hm, hv]
        | cons t2 rest2 =>
          simp only [reset_password, reset_password_check, hfu, hm]
          simp [hfu, hm]
  · intro err herr
    cases hc : reset_password_check db e tok now with
    | error e2 =>
      unfold reset_password
      simp only [hc]
    | ok p =>
      obtain ⟨uid, tid⟩ := p
      unfold reset_password at herr
      simp only [hc] at herr
      exact absurd herr (by simp)
  · intro uid tid hc
    constructor
    · unfold reset_password
      simp only [hc]
    · intro k
      unfold reset_password_crash reset_password_writes
      simp only [hc]
      rcases k with _ | _ | n
      · left
        rfl
      · right
        left
        rfl
      · right
        right
        have htake : List.take (n + 2)
            [Write.setPassword uid newPw, Write.markTokenUsed tid]
            = [Write.setPassword uid newPw, Write.markTokenUsed tid] := by
          simp
        rw [htake]

/-- Witness for the amended C5: the live token state satisfies the
success branch, and an empty store satisfies the error branch of the
equivalence. -/
theorem C5_reset_password_semantics_witness :
    reset_password_check dbR0 "alice@example.com" "tok123" 0 = .ok (1, 1)
    ∧ (reset_password dbR0 "alice@example.com" "tok123" "npw" 0).1
        = applyWrites dbR0 [.setPassword 1 "npw", .markTokenUsed 1]
    ∧ (reset_password dbEmpty "x@y.z" "t" "p" 0).2
        = .error (.validationError "Invalid or expired reset token.") :=
  ⟨rfl,
   ((C5_reset_password_semantics dbR0 "alice@example.com" "tok123" "npw" 0).2.2 1 1 rfl).1,
   (C5_reset_password_semantics dbEmpty "x@y.z" "t" "p" 0).1.mpr (Or.inl rfl)⟩

/-- C6 counterexample: redeeming a live email-verification code twice —
the second attempt fails with the distinct already-verified message, not
with the invalid/expired error class the claim names. -/
theorem C6_second_redemption_error_class_cex :
    (verify_email dbV0 "alice@example.com" "1234" 0).2 = .ok 1
    ∧ (verify_email (verify_email dbV0 "alice@example.com" "1234" 0).1
        "alice@example.com" "1234" 0).2
      = .error (.validationError "Email is already verified.")
    ∧ Err.validationError "Email is already verified."
        ≠ Err.validationError "Invalid or expired verification code." :=
  ⟨rfl, rfl, by decide⟩

/-- C6 amended: redeeming a token that is valid at redemption time
succeeds exactly once, and a second redemption of the same token value
for the same user fails while leaving the store exactly as the first
redemption left it — with the invalid/expired error class for the
password-reset flow, but with the distinct already-verified error for the
email-verification flow. -/
theorem C6_single_use_redemption :
    (∀ (db : DB) (e tok p1 p2 : String) (now1 now2 uid tid : Nat),
      reset_password_check db e tok now1 = .ok (uid, tid) →
      (reset_password db e tok p1 now1).2 = .ok ()
      ∧ reset_password (reset_password db e tok p1 now1).1 e tok p2 now2
        = ((reset_password db e tok p1 now1).1,
           .error (.validationError "Invalid or expired reset token.")))
    ∧ (∀ (db : DB) (e c : String) (now1 now2 uid tid : Nat),
      verify_email_check db e c now1 = .ok (uid, tid) →
      (verify_email db e c now1).2 = .ok uid
      ∧ verify_email (verify_email db e c now1).1 e c now2
        = ((verify_email db e c now1).1,
           .error (.validationError "Email is already verified."))) := by
  constructor
  · intro db e tok p1 p2 now1 now2 uid tid hc
    obtain ⟨u0, t0, hfu, hm, hval, huid, htid⟩ :=
      reset_check_ok_inv db e tok now1 uid tid hc
    subst huid
    subst htid
    have h1 : reset_password db e tok p1 now1
        = (applyWrites db [.setPassword u0.id p1, .markTokenUsed t0.id], .ok ()) := by
      unfold reset_password
      simp only [hc]
    refine ⟨by rw [h1], ?_⟩
    rw [h1]
    have hfu1 : findUser
        (applyWrites db [.setPassword u0.id p1, .markTokenUsed t0.id]).users e
        = some (updPw u0.id p1 u0) := by
      show findUser (db.users.map (updPw u0.id p1)) e = some (updPw u0.id p1 u0)
      rw [findUser_map_of_email_eq (updPw u0.id p1)
        (fun u => by unfold updPw; by_cases h : u.id = u0.id <;> simp [h]) db.users e,
        hfu]
      rfl
    have hid : (updPw u0.id p1 u0).id = u0.id := by
      unfold updPw
      simp
    have hm1 : resetMatches
        (applyWrites db [.setPassword u0.id p1, .markTokenUsed t0.id])
        (updPw u0.id p1 u0).id tok = [updUsed t0.id t0] := by
      rw [hid]
      unfold resetMatches
      show (db.tokens.map (updUsed t0.id)).filter _ = _
      rw [filter_map_of_pred_eq (updUsed t0.id) _
        (fun t => by unfold updUsed; by_cases h : t.id = t0.id <;> simp [h]) db.tokens]
      unfold resetMatches at hm
      rw [hm]
      rfl
    have hcheck2 : reset_password_check
        (applyWrites db [.setPassword u0.id p1, .markTokenUsed t0.id]) e tok now2
        = .error (.validationError "Invalid or expired reset token.") := by
      unfold reset_password_check
      simp only [hfu1, hm1]
      rw [if_neg]
      unfold updUsed
      simp [VerificationToken.is_valid]
    unfold reset_password
    simp only [hcheck2]
  · intro db e c now1 now2 uid tid hc
    obtain ⟨u0, t0, hfu, hnv, hm, hval, huid, htid⟩ :=
      verify_check_ok_inv db e c now1 uid tid hc
    subst huid
    subst htid
    have h1 : verify_email db e c now1
        = (applyWrites db [.setEmailVerified u0.id, .markTokenUsed t0.id],
           .ok u0.id) := by
      unfold verify_email
      simp only [hc]
    refine ⟨by rw [h1], ?_⟩
    rw [h1]
    have hfu1 : findUser
        (applyWrites db [.setEmailVerified u0.id, .markTokenUsed t0.id]).users e
        = some (updVerified u0.id u0) := by
      show findUser (db.users.map (updVerified u0.id)) e = some (updVerified u0.id u0)
      rw [findUser_map_of_email_eq (updVerified u0.id)
        (fun u => by unfold updVerified; by_cases h : u.id = u0.id <;> simp [h])
        db.users e, hfu]
      rfl
    have hver : (updVerified u0.id u0).email_verified = true := by
      unfold updVerified
      simp
    have hcheck2 : verify_email_check
        (applyWrites db [.setEmailVerified u0.id, .markTokenUsed t0.id]) e c now2
        = .error (.validationError "Email is already verified.") := by
      unfold verify_email_check
      simp only [hfu1]
      rw [if_pos hver]
    unfold verify_email
    simp only [hcheck2]

/-- Witness for the amended C6 at the concrete live-token states. -/
theorem C6_single_use_redemption_witness :
    ((reset_password dbR0 "alice@example.com" "tok123" "npw2" 0).2 = .ok ()
      ∧ reset_password (reset_password dbR0 "alice@example.com" "tok123" "npw2" 0).1
          "alice@example.com" "tok123" "npw3" 0
        = ((reset_password dbR0 "alice@example.com" "tok123" "npw2" 0).1,
           .error (.validationError "Invalid or expired reset token.")))
    ∧ ((verify_email dbV0 "alice@example.com" "1234" 5).2 = .ok 1
      ∧ verify_email (verify_email dbV0 "alice@example.com" "1234" 5).1
          "alice@example.com" "1234" 5
        = ((verify_email dbV0 "alice@example.com" "1234" 5).1,
           .error (.validationError "Email is already verified."))) :=
  ⟨(C6_single_use_redemption).1 dbR0 "alice@example.com" "tok123" "npw2" "npw3" 0 0 1 1 rfl,
   (C6_single_use_redemption).2 dbV0 "alice@example.com" "1234" 5 5 1 1 rfl⟩
